import Mathlib

/-!
Verification development for the cross-process mutex broker of wireguard-nt
(`api/namespace.c`).

The development shallowly embeds the behaviour of the unit:

* a byte-exact model of the data fed to SHA-256 when `NamespaceTakePoolMutex`
  derives the lock identity of a pool, together with an executable SHA-256 over
  byte lists (machine words are `Nat` reduced mod 2^32);
* the hex formatting of the digest and the fixed mutex-name strings;
* a state-and-trace model of `NamespaceRuntimeInit`, `NamespaceDone`,
  `NamespaceInit`, `NamespaceTakePoolMutex`,
  `NamespaceTakeDriverInstallationMutex` and `NamespaceReleaseMutex`, in which
  the outcome of every external OS/bcrypt call is an explicit input
  (an environment record), and the OS calls actually performed are recorded
  in an action trace.

Wide strings (`LPWSTR`) are modelled as lists of UTF-16 code units
(`List Nat`, each unit < 2^16, no interior null); the bytes the code touches
are modelled little-endian exactly as they sit in memory.  The external
`NormalizeString` (NFC canonicalisation) and `RtlNtStatusToDosError` are
modelled as abstract function parameters.
-/

set_option maxRecDepth 10000

/-! ## SHA-256 over byte lists -/

/-- Modulus of a 32-bit machine word. -/
def w32 : Nat := 4294967296

/-- Addition mod 2^32. -/
def add32 (a b : Nat) : Nat := (a + b) % w32

/-- Right rotation of a 32-bit word by n. -/
def rotr (n x : Nat) : Nat := x / 2 ^ n + x % 2 ^ n * 2 ^ (32 - n)

/-- Logical right shift of a 32-bit word by n. -/
def shr (n x : Nat) : Nat := x / 2 ^ n

/-- Big sigma-0 of SHA-256. -/
def bsig0 (x : Nat) : Nat := rotr 2 x ^^^ rotr 13 x ^^^ rotr 22 x

/-- Big sigma-1 of SHA-256. -/
def bsig1 (x : Nat) : Nat := rotr 6 x ^^^ rotr 11 x ^^^ rotr 25 x

/-- Small sigma-0 of SHA-256. -/
def ssig0 (x : Nat) : Nat := rotr 7 x ^^^ rotr 18 x ^^^ shr 3 x

/-- Small sigma-1 of SHA-256. -/
def ssig1 (x : Nat) : Nat := rotr 17 x ^^^ rotr 19 x ^^^ shr 10 x

/-- The SHA-256 choice function (the complement of x is taken within 32 bits). -/
def chf (x y z : Nat) : Nat := x &&& y ^^^ (w32 - 1 - x % w32) &&& z

/-- The SHA-256 majority function. -/
def majf (x y z : Nat) : Nat := x &&& y ^^^ x &&& z ^^^ y &&& z

/-- The 64 SHA-256 round constants. -/
def sha256K : List Nat :=
  [1116352408, 1899447441, 3049323471, 3921009573, 961987163, 1508970993,
   2453635748, 2870763221, 3624381080, 310598401, 607225278, 1426881987,
   1925078388, 2162078206, 2614888103, 3248222580, 3835390401, 4022224774,
   264347078, 604807628, 770255983, 1249150122, 1555081692, 1996064986,
   2554220882, 2821834349, 2952996808, 3210313671, 3336571891, 3584528711,
   113926993, 338241895, 666307205, 773529912, 1294757372, 1396182291,
   1695183700, 1986661051, 2177026350, 2456956037, 2730485921, 2820302411,
   3259730800, 3345764771, 3516065817, 3600352804, 4094571909, 275423344,
   430227734, 506948616, 659060556, 883997877, 958139571, 1322822218,
   1537002063, 1747873779, 1955562222, 2024104815, 2227730452, 2361852424,
   2428436474, 2756734187, 3204031479, 3329325298]

/-- The eight 32-bit working words of the SHA-256 state. -/
structure H8 where
  a : Nat
  b : Nat
  c : Nat
  d : Nat
  e : Nat
  f : Nat
  g : Nat
  h : Nat
deriving DecidableEq

/-- The SHA-256 initial hash value. -/
def sha256InitH : H8 :=
  ⟨1779033703,
   3144134277,
   1013904242,
   2773480762,
   1359893119,
   2600822924,
   528734635,
   1541459225⟩

/-- Big-endian 8-byte encoding of the bit-length field of SHA-256 padding. -/
def lenBytes (n : Nat) : List Nat :=
  [n / 2 ^ 56 % 256, n / 2 ^ 48 % 256, n / 2 ^ 40 % 256, n / 2 ^ 32 % 256,
   n / 2 ^ 24 % 256, n / 2 ^ 16 % 256, n / 2 ^ 8 % 256, n % 256]

/-- SHA-256 padding: append 0x80, zero bytes up to 56 mod 64, then the 64-bit bit length. -/
def padMessage (msg : List Nat) : List Nat :=
  msg ++ [128] ++ List.replicate ((119 - msg.length % 64) % 64) 0 ++ lenBytes (8 * msg.length)

/-- Group bytes into big-endian 32-bit words (the input length is a multiple of 4). -/
def bytesToWords (bs : List Nat) : List Nat :=
  (bs.foldl
    (fun (p : List Nat × Nat × Nat) b =>
      let cur := p.2.1 * 256 + b
      if p.2.2 = 3 then (cur :: p.1, 0, 0) else (p.1, cur, p.2.2 + 1))
    ([], 0, 0)).1.reverse

/-- Group words into blocks of 16 (the input length is a multiple of 16). -/
def wordsToBlocks (ws : List Nat) : List (List Nat) :=
  (ws.foldl
    (fun (p : List (List Nat) × List Nat × Nat) w =>
      if p.2.2 = 15 then ((w :: p.2.1).reverse :: p.1, [], 0) else (p.1, w :: p.2.1, p.2.2 + 1))
    ([], [], 0)).1.reverse

/-- Message schedule, most recent word first: extend a reversed 16-word block t times. -/
def scheduleRev (l : List Nat) : Nat → List Nat
  | 0 => l
  | t + 1 =>
    let l' := scheduleRev l t
    add32 (add32 (ssig1 (l'.getD 1 0)) (l'.getD 6 0))
        (add32 (ssig0 (l'.getD 14 0)) (l'.getD 15 0)) :: l'

/-- One SHA-256 compression round. -/
def roundStep (s : H8) (kw : Nat × Nat) : H8 :=
  let t1 := add32 s.h (add32 (bsig1 s.e) (add32 (chf s.e s.f s.g) (add32 kw.1 kw.2)))
  let t2 := add32 (bsig0 s.a) (majf s.a s.b s.c)
  ⟨add32 t1 t2, s.a, s.b, s.c, add32 s.d t1, s.e, s.f, s.g⟩

/-- Componentwise addition mod 2^32 of two SHA-256 states. -/
def addH8 (x y : H8) : H8 :=
  ⟨add32 x.a y.a, add32 x.b y.b, add32 x.c y.c, add32 x.d y.d,
   add32 x.e y.e, add32 x.f y.f, add32 x.g y.g, add32 x.h y.h⟩

/-- Compress one 16-word block into the running SHA-256 state. -/
def compressBlock (s : H8) (block : List Nat) : H8 :=
  addH8 s (List.foldl roundStep s (sha256K.zip (scheduleRev block.reverse 48).reverse))

/-- Big-endian byte decomposition of a 32-bit word. -/
def wordBytesBE (w : Nat) : List Nat :=
  [w / 2 ^ 24 % 256, w / 2 ^ 16 % 256, w / 2 ^ 8 % 256, w % 256]

/-- The 32 digest bytes of a final SHA-256 state. -/
def digestBytes (s : H8) : List Nat :=
  wordBytesBE s.a ++ wordBytesBE s.b ++ wordBytesBE s.c ++ wordBytesBE s.d ++
  wordBytesBE s.e ++ wordBytesBE s.f ++ wordBytesBE s.g ++ wordBytesBE s.h

/-- SHA-256 of a byte sequence (every input byte < 256), as its 32 digest bytes. -/
def sha256 (msg : List Nat) : List Nat :=
  digestBytes (List.foldl compressBlock sha256InitH (wordsToBlocks (bytesToWords (padMessage msg))))

/-! ## Lock-identity derivation (`NamespaceTakePoolMutex`, lines 124-165)

A wide string is a list of UTF-16 code units; `utf16leBytes` lays it out in
memory byte order (little endian).  `mutex_label` is the constant at line 133;
`sizeof(mutex_label)` covers the code units of the label and its 2-byte null
terminator.  The second `BCryptHashData` call (line 148) passes the buffer
`PoolNorm` with byte count `wcslen(PoolNorm) + 2`, i.e. the number of
"characters" plus two, so the bytes actually hashed are the first
`wcslen + 2` bytes of the in-memory encoding of the normalized name
(`poolNameHashBytesCode`). -/

/-- Little-endian UTF-16 memory bytes of a list of code units. -/
def utf16leBytes (units : List Nat) : List Nat :=
  units.flatMap (fun u => [u % 256, u / 256 % 256])

/-- Code units of the constant `mutex_label` string (line 133). -/
def mutexLabelUnits : List Nat :=
  ("WireGuard Adapter Name Mutex Stable Suffix v1 jason@zx2c4.com").data.map Char.toNat

/-- All bytes of `mutex_label` as hashed at line 135: `sizeof(mutex_label)` bytes,
including the 2-byte null terminator. -/
def mutexLabelBytes : List Nat := utf16leBytes mutexLabelUnits ++ [0, 0]

/-- The bytes of the normalized pool name actually hashed at line 148:
the first `wcslen(PoolNorm) + 2` bytes of the buffer. -/
def poolNameHashBytesCode (poolNorm : List Nat) : List Nat :=
  (utf16leBytes poolNorm ++ [0, 0]).take (poolNorm.length + 2)

/-- The full byte stream fed to the SHA-256 hash object by the code
(label bytes, then the truncated name bytes). -/
def poolHashInputCode (poolNorm : List Nat) : List Nat :=
  mutexLabelBytes ++ poolNameHashBytesCode poolNorm

/-- Modelled from the words of the spec (for comparison with `poolHashInputCode`):
the label bytes followed by ALL bytes of the normalized UTF-16 name plus its
2-byte null terminator, i.e. `2*L + 2` name bytes for a name of L units. -/
def poolHashInputSpec (poolNorm : List Nat) : List Nat :=
  mutexLabelBytes ++ utf16leBytes poolNorm ++ [0, 0]

/-- Code unit of one lowercase hexadecimal digit, as produced by `%02x`. -/
def hexDigitUnit (n : Nat) : Nat := if n < 10 then 48 + n else 87 + n

/-- The two code units `%02x` prints for one digest byte (line 165). -/
def byteHexUnits (b : Nat) : List Nat := [hexDigitUnit (b / 16), hexDigitUnit (b % 16)]

/-- Code units of the constant `MutexNamePrefix` (line 161). -/
def mutexNamePrefixUnits : List Nat :=
  ("WireGuard\\WireGuard-Name-Mutex-").data.map Char.toNat

/-- The mutex name built at lines 162-165: the fixed prefix followed by the
lowercase hex expansion of the 32 digest bytes. -/
def mutexNameUnits (digest : List Nat) : List Nat :=
  mutexNamePrefixUnits ++ digest.flatMap byteHexUnits

/-- The pool-mutex name as a function of the normalized pool name. -/
def poolMutexNameUnits (poolNorm : List Nat) : List Nat :=
  mutexNameUnits (sha256 (poolHashInputCode poolNorm))

/-- Code units of the constant mutex name of
`NamespaceTakeDriverInstallationMutex` (line 198). -/
def installationMutexNameUnits : List Nat :=
  ("WireGuard\\WireGuard-Driver-Installation-Mutex").data.map Char.toNat

/-- A code unit is a lowercase hexadecimal digit (0-9 or a-f). -/
def isLowerHexUnit (c : Nat) : Prop := (48 ≤ c ∧ c ≤ 57) ∨ (97 ≤ c ∧ c ≤ 102)

instance (c : Nat) : Decidable (isLowerHexUnit c) := by
  unfold isLowerHexUnit; infer_instance

/-- The full derivation pool name → mutex name, with the external NFC
normalisation (`NormalizeStringAlloc`, i.e. `NormalizeString(NormalizationC, ...)`)
abstracted as the function `nfc`. -/
def deriveMutexName (nfc : List Nat → List Nat) (pool : List Nat) : List Nat :=
  poolMutexNameUnits (nfc pool)

/-- A sample normalisation map used to instantiate `deriveMutexName`:
it sends the decomposed sequence e + COMBINING ACUTE (0x65, 0x0301) to the
precomposed é (0xE9) and leaves everything else alone. -/
def nfcSample (u : List Nat) : List Nat := if u = [101, 769] then [233] else u

/-! ## Windows constants -/

/-- Win32 ERROR_PATH_NOT_FOUND. -/
def ERROR_PATH_NOT_FOUND : Nat := 3

/-- Win32 ERROR_ALREADY_EXISTS. -/
def ERROR_ALREADY_EXISTS : Nat := 183

/-- Win32 ERROR_GEN_FAILURE. -/
def ERROR_GEN_FAILURE : Nat := 31

/-- Wait result WAIT_OBJECT_0. -/
def WAIT_OBJECT_0 : Nat := 0

/-- Wait result WAIT_ABANDONED. -/
def WAIT_ABANDONED : Nat := 128

/-! ## State-and-trace model of the namespace unit

The outcome of every external call is an input (environment); the successful OS
calls and the cleanup/error calls actually performed are recorded as a trace
of actions. -/

/-- One observable OS/bcrypt call performed by the unit. -/
inductive OsAct where
  | enterCS
  | leaveCS
  | openAlgProvider
  | closeAlgProvider
  | createBoundaryDescriptor
  | deleteBoundaryDescriptor
  | addSidToBoundary
  | createPrivateNamespace
  | openPrivateNamespace
  | closePrivateNamespace
  | setLastError (e : Nat)
  | createHashAct
  | hashDataAct
  | allocNorm
  | freeNorm
  | finishHashAct
  | destroyHashAct
  | createMutexAct (name : List Nat)
  | waitAct
  | closeHandleAct (h : Nat)
  | releaseMutexAct (h : Nat)
deriving DecidableEq

/-- Outcomes of one iteration of the create-or-open loop (lines 87-102):
`createErr = none` means `CreatePrivateNamespaceW` succeeded, otherwise it
failed with that `GetLastError` code; `openErr` is consulted only when the
create failed with `ERROR_ALREADY_EXISTS` and describes
`OpenPrivateNamespaceW` the same way. -/
structure NsIter where
  createErr : Option Nat
  openErr : Option Nat
deriving DecidableEq

/-- Result of the create-or-open loop. -/
inductive LoopResult where
  | opened (viaOpen : Bool)
  | failedCreate (e : Nat)
  | failedOpen (e : Nat)
  | exhausted
deriving DecidableEq

/-- The create-or-open retry loop of `NamespaceRuntimeInit` (lines 87-102),
run against a finite list of per-iteration outcomes; `exhausted` means the
oracle ran out while the loop was still retrying. -/
def nsLoopRun : List NsIter → LoopResult
  | [] => .exhausted
  | it :: rest =>
    match it.createErr with
    | none => .opened false
    | some e =>
      if e = ERROR_ALREADY_EXISTS then
        match it.openErr with
        | none => .opened true
        | some e2 => if e2 = ERROR_PATH_NOT_FOUND then nsLoopRun rest else .failedOpen e2
      else .failedCreate e

/-- Outcomes of the external calls made by `NamespaceRuntimeInit`:
`none` is success, `some e` a failure carrying the NTSTATUS
(for `bcryptOpenAlg`) or `GetLastError` code. -/
structure NsEnv where
  bcryptOpenAlg : Option Nat
  createSid : Option Nat
  createBoundary : Option Nat
  addSid : Option Nat
  nsLoop : List NsIter

/-- The process-wide state of the unit: whether `PrivateNamespace` is set,
which sub-resources are currently held, whether the `Initializing` critical
section object exists (`NamespaceInit` creates it, `NamespaceDone` deletes
it), and the thread-local last-error value. -/
structure NsState where
  privateNamespace : Bool
  boundaryHeld : Bool
  algHeld : Bool
  csAlive : Bool
  lastError : Nat
deriving DecidableEq

/-- Result of `NamespaceRuntimeInit`: TRUE, FALSE, still looping (oracle
exhausted), or undefined behaviour (entering a deleted critical section). -/
inductive InitResult where
  | ok
  | fail
  | looping
  | ub
deriving DecidableEq

/-- Output of `NamespaceRuntimeInit`: returned value, final state, trace. -/
structure InitOut where
  result : InitResult
  state : NsState
  trace : List OsAct
deriving DecidableEq

/-- Shallow embedding of `NamespaceRuntimeInit` (lines 47-115).
`ntToDos` abstracts `RtlNtStatusToDosError`.  Entering the critical section
after `NamespaceDone` deleted it is undefined behaviour (`ub`). -/
def NamespaceRuntimeInit (ntToDos : Nat → Nat) (env : NsEnv) (s : NsState) : InitOut :=
  if !s.csAlive then ⟨.ub, s, []⟩
  else if s.privateNamespace then ⟨.ok, s, [.enterCS, .leaveCS]⟩
  else
    match env.bcryptOpenAlg with
    | some status =>
      ⟨.fail, { s with lastError := ntToDos status },
       [.enterCS, .leaveCS, .setLastError (ntToDos status)]⟩
    | none =>
      match env.createSid with
      | some e =>
        ⟨.fail, { s with lastError := e },
         [.enterCS, .openAlgProvider, .closeAlgProvider, .leaveCS, .setLastError e]⟩
      | none =>
        match env.createBoundary with
        | some e =>
          ⟨.fail, { s with lastError := e },
           [.enterCS, .openAlgProvider, .closeAlgProvider, .leaveCS, .setLastError e]⟩
        | none =>
          match env.addSid with
          | some e =>
            ⟨.fail, { s with lastError := e },
             [.enterCS, .openAlgProvider, .createBoundaryDescriptor,
              .deleteBoundaryDescriptor, .closeAlgProvider, .leaveCS, .setLastError e]⟩
          | none =>
            match nsLoopRun env.nsLoop with
            | .opened viaOpen =>
              ⟨.ok, { s with privateNamespace := true, boundaryHeld := true, algHeld := true },
               [.enterCS, .openAlgProvider, .createBoundaryDescriptor, .addSidToBoundary,
                if viaOpen then .openPrivateNamespace else .createPrivateNamespace, .leaveCS]⟩
            | .failedCreate e =>
              ⟨.fail, { s with lastError := e },
               [.enterCS, .openAlgProvider, .createBoundaryDescriptor, .addSidToBoundary,
                .deleteBoundaryDescriptor, .closeAlgProvider, .leaveCS, .setLastError e]⟩
            | .failedOpen e =>
              ⟨.fail, { s with lastError := e },
               [.enterCS, .openAlgProvider, .createBoundaryDescriptor, .addSidToBoundary,
                .deleteBoundaryDescriptor, .closeAlgProvider, .leaveCS, .setLastError e]⟩
            | .exhausted =>
              ⟨.looping, s,
               [.enterCS, .openAlgProvider, .createBoundaryDescriptor, .addSidToBoundary]⟩

/-- Output of `NamespaceDone`: final state and trace. -/
structure DoneOut where
  state : NsState
  trace : List OsAct
deriving DecidableEq

/-- Shallow embedding of `NamespaceDone` (lines 230-242): under the lock,
if initialized, close the algorithm provider, the namespace and the boundary
descriptor and reset `PrivateNamespace`; then delete the critical section
(modelled by `csAlive := false`). -/
def NamespaceDone (s : NsState) : DoneOut :=
  if s.privateNamespace then
    ⟨{ s with
        privateNamespace := false
        boundaryHeld := false
        algHeld := false
        csAlive := false },
     [.enterCS, .closeAlgProvider, .closePrivateNamespace, .deleteBoundaryDescriptor, .leaveCS]⟩
  else ⟨{ s with csAlive := false }, [.enterCS, .leaveCS]⟩

/-- Shallow embedding of `NamespaceInit` (lines 225-228):
`InitializeCriticalSection`. -/
def NamespaceInit (s : NsState) : NsState := { s with csAlive := true }

/-- Outcomes of the external calls made by `NamespaceTakePoolMutex` after a
successful runtime init.  `normResult` is the output of
`NormalizeStringAlloc` (`none` = failure, with `normErr` the last-error it
left); the `Status` fields are NTSTATUS failures of the bcrypt calls;
`mutexHandle` is the handle `CreateMutexW` returns on success;
`waitResult` is what `WaitForSingleObject` returns. -/
structure TakeEnv where
  initOk : Bool
  createHashStatus : Option Nat
  hashLabelStatus : Option Nat
  normResult : Option (List Nat)
  normErr : Nat
  hashNameStatus : Option Nat
  finishHashStatus : Option Nat
  createMutexErr : Option Nat
  mutexHandle : Nat
  waitResult : Nat

/-- Output of an acquire: the returned handle (`none` = NULL), the value the
function itself passed to `SetLastError` on this path (if any), and the trace. -/
structure TakeOut where
  handle : Option Nat
  errorSet : Option Nat
  trace : List OsAct
deriving DecidableEq

/-- Shallow embedding of `NamespaceTakePoolMutex` (lines 117-190). -/
def NamespaceTakePoolMutex (ntToDos : Nat → Nat) (env : TakeEnv) : TakeOut :=
  if !env.initOk then ⟨none, none, []⟩
  else
    match env.createHashStatus with
    | some st => ⟨none, some (ntToDos st), [.setLastError (ntToDos st)]⟩
    | none =>
      match env.hashLabelStatus with
      | some st =>
        ⟨none, some (ntToDos st), [.createHashAct, .destroyHashAct, .setLastError (ntToDos st)]⟩
      | none =>
        match env.normResult with
        | none =>
          ⟨none, some env.normErr,
           [.createHashAct, .hashDataAct, .destroyHashAct, .setLastError env.normErr]⟩
        | some poolNorm =>
          match env.hashNameStatus with
          | some st =>
            ⟨none, some (ntToDos st),
             [.createHashAct, .hashDataAct, .allocNorm, .freeNorm, .destroyHashAct,
              .setLastError (ntToDos st)]⟩
          | none =>
            match env.finishHashStatus with
            | some st =>
              ⟨none, some (ntToDos st),
               [.createHashAct, .hashDataAct, .allocNorm, .hashDataAct, .freeNorm,
                .destroyHashAct, .setLastError (ntToDos st)]⟩
            | none =>
              match env.createMutexErr with
              | some e =>
                ⟨none, some e,
                 [.createHashAct, .hashDataAct, .allocNorm, .hashDataAct, .finishHashAct,
                  .freeNorm, .destroyHashAct, .setLastError e]⟩
              | none =>
                if env.waitResult = WAIT_OBJECT_0 ∨ env.waitResult = WAIT_ABANDONED then
                  ⟨some env.mutexHandle, none,
                   [.createHashAct, .hashDataAct, .allocNorm, .hashDataAct, .finishHashAct,
                    .createMutexAct (poolMutexNameUnits poolNorm), .waitAct, .freeNorm,
                    .destroyHashAct]⟩
                else
                  ⟨none, some ERROR_GEN_FAILURE,
                   [.createHashAct, .hashDataAct, .allocNorm, .hashDataAct, .finishHashAct,
                    .createMutexAct (poolMutexNameUnits poolNorm), .waitAct,
                    .closeHandleAct env.mutexHandle, .freeNorm, .destroyHashAct,
                    .setLastError ERROR_GEN_FAILURE]⟩

/-- Outcomes of the external calls made by `NamespaceTakeDriverInstallationMutex`. -/
structure DriverEnv where
  initOk : Bool
  createMutexErr : Option Nat
  mutexHandle : Nat
  waitResult : Nat

/-- Shallow embedding of `NamespaceTakeDriverInstallationMutex` (lines 192-215). -/
def NamespaceTakeDriverInstallationMutex (env : DriverEnv) : TakeOut :=
  if !env.initOk then ⟨none, none, []⟩
  else
    match env.createMutexErr with
    | some _ => ⟨none, none, []⟩
    | none =>
      if env.waitResult = WAIT_OBJECT_0 ∨ env.waitResult = WAIT_ABANDONED then
        ⟨some env.mutexHandle, none, [.createMutexAct installationMutexNameUnits, .waitAct]⟩
      else
        ⟨none, some ERROR_GEN_FAILURE,
         [.createMutexAct installationMutexNameUnits, .waitAct,
          .closeHandleAct env.mutexHandle, .setLastError ERROR_GEN_FAILURE]⟩

/-- Shallow embedding of `NamespaceReleaseMutex` (lines 217-223): the C
function returns VOID, so the value in the model is just the trace of the two
calls it makes; `releaseOk` is the (ignored) BOOL result of `ReleaseMutex`. -/
def NamespaceReleaseMutex (h : Nat) (releaseOk : Bool) : List OsAct :=
  [.releaseMutexAct h, .closeHandleAct h]

/-- An action that acquires one of the sub-resources of runtime init. -/
def isAcquireAct : OsAct → Bool
  | .openAlgProvider | .createBoundaryDescriptor
  | .createPrivateNamespace | .openPrivateNamespace => true
  | _ => false

/-- An action that releases one of the sub-resources of runtime init. -/
def isReleaseAct : OsAct → Bool
  | .closeAlgProvider | .deleteBoundaryDescriptor | .closePrivateNamespace => true
  | _ => false

/-- The release action matching an acquire action. -/
def releasePairAct : OsAct → OsAct
  | .openAlgProvider => .closeAlgProvider
  | .createBoundaryDescriptor => .deleteBoundaryDescriptor
  | .createPrivateNamespace => .closePrivateNamespace
  | .openPrivateNamespace => .closePrivateNamespace
  | a => a

/-- The context is fully initialized: namespace, boundary descriptor and
algorithm provider are all present. -/
def initializedS (s : NsState) : Prop :=
  s.privateNamespace = true ∧ s.boundaryHeld = true ∧ s.algHeld = true

/-- The context is fully uninitialized: all three are absent. -/
def uninitializedS (s : NsState) : Prop :=
  s.privateNamespace = false ∧ s.boundaryHeld = false ∧ s.algHeld = false

instance (s : NsState) : Decidable (initializedS s) := by
  unfold initializedS; infer_instance

instance (s : NsState) : Decidable (uninitializedS s) := by
  unfold uninitializedS; infer_instance

/-- An environment in which every external call of runtime init succeeds at
the first attempt. -/
def goodNsEnv : NsEnv := ⟨none, none, none, none, [⟨none, none⟩]⟩

/-- The process state right after `NamespaceInit` at startup: nothing held,
critical section alive. -/
def startedNsState : NsState := ⟨false, false, false, true, 0⟩

/-- An environment whose `AddSIDToBoundaryDescriptor` call fails with error 5. -/
def failNsEnv : NsEnv := ⟨none, none, none, some 5, []⟩

/-- A fully initialized process state. -/
def initializedNsState : NsState := ⟨true, true, true, true, 0⟩

/-! ## Helper lemmas -/

theorem utf16leBytes_length (u : List Nat) : (utf16leBytes u).length = 2 * u.length := by
  induction u with
  | nil => rfl
  | cons a t ih => simp [utf16leBytes] at ih ⊢; omega

theorem flatMap_byteHex_length (l : List Nat) : (l.flatMap byteHexUnits).length = 2 * l.length := by
  induction l with
  | nil => rfl
  | cons a t ih => simp [byteHexUnits] at ih ⊢; omega

theorem digestBytes_length (s : H8) : (digestBytes s).length = 32 := rfl

theorem sha256_length (msg : List Nat) : (sha256 msg).length = 32 := rfl

theorem wordBytesBE_lt (w : Nat) : ∀ b ∈ wordBytesBE w, b < 256 := by
  intro b hb
  simp only [wordBytesBE, List.mem_cons, List.not_mem_nil, or_false] at hb
  rcases hb with h | h | h | h <;> subst h <;> exact Nat.mod_lt _ (by norm_num)

theorem digestBytes_lt (s : H8) : ∀ b ∈ digestBytes s, b < 256 := by
  unfold digestBytes
  simp only [List.forall_mem_append]
  exact ⟨⟨⟨⟨⟨⟨⟨wordBytesBE_lt _, wordBytesBE_lt _⟩, wordBytesBE_lt _⟩, wordBytesBE_lt _⟩,
    wordBytesBE_lt _⟩, wordBytesBE_lt _⟩, wordBytesBE_lt _⟩, wordBytesBE_lt _⟩

theorem sha256_lt (msg : List Nat) : ∀ b ∈ sha256 msg, b < 256 := digestBytes_lt _

theorem hexDigit_lower : ∀ n, n < 16 → isLowerHexUnit (hexDigitUnit n) := by decide

theorem byteHexUnits_lower (b : Nat) (hb : b < 256) : ∀ c ∈ byteHexUnits b, isLowerHexUnit c := by
  intro c hc
  simp only [byteHexUnits, List.mem_cons, List.not_mem_nil, or_false] at hc
  rcases hc with h | h <;> subst h
  · exact hexDigit_lower _ (by omega)
  · exact hexDigit_lower _ (by omega)

theorem flatMap_byteHex_lower (l : List Nat) (h : ∀ b ∈ l, b < 256) :
    ∀ c ∈ l.flatMap byteHexUnits, isLowerHexUnit c := by
  intro c hc
  rw [List.mem_flatMap] at hc
  obtain ⟨b, hb, hcb⟩ := hc
  exact byteHexUnits_lower b (h b hb) c hcb

theorem takePool_initFail (nt : Nat → Nat) (tenv : TakeEnv) (h : tenv.initOk = false) :
    (NamespaceTakePoolMutex nt tenv).handle = none := by
  obtain ⟨io, a1, a2, a3, a4, a5, a6, a7, a8, a9⟩ := tenv
  subst h
  rfl

/-! ## Claims -/

/-- C1: the claim states that the digest is SHA-256 over the fixed label
(with its 2-byte terminator) followed by ALL `2*L + 2` bytes of the
NFC-normalized UTF-16 pool name plus terminator.  The code instead passes
`wcslen(PoolNorm) + 2` as the byte count to `BCryptHashData` (line 148),
so only `L + 2` name bytes are hashed (the comment there, "Add in NULL 2
bytes", shows a byte count was intended, but `wcslen` counts characters).
At the one-unit name "a" the hash input of the code is the label plus the 3
bytes 61 00 00, the claimed input is the label plus the 4 bytes
61 00 00 00, and the two SHA-256 digests differ. -/
theorem C1_truncated_name_bytes :
    (∀ poolNorm : List Nat, (poolNameHashBytesCode poolNorm).length = poolNorm.length + 2)
    ∧ poolHashInputCode [97] = mutexLabelBytes ++ [97, 0, 0]
    ∧ poolHashInputSpec [97] = mutexLabelBytes ++ [97, 0, 0, 0]
    ∧ sha256 (poolHashInputCode [97]) ≠ sha256 (poolHashInputSpec [97]) := by
  refine ⟨?_, rfl, rfl, by decide⟩
  intro p
  unfold poolNameHashBytesCode
  rw [List.length_take, List.length_append, utf16leBytes_length]
  simp
  omega

/-- C2: the claim states that distinct NFC-normal names always derive
distinct identities.  Because only `wcslen + 2` bytes of the name are
hashed, the distinct four-unit names "abcd" and "abce" feed the very same
byte stream into SHA-256 (their last unit is entirely dropped), so their
derived mutex names are identical. -/
theorem C2_distinct_names_same_identity :
    ([97, 98, 99, 100] : List Nat) ≠ [97, 98, 99, 101]
    ∧ poolHashInputCode [97, 98, 99, 100] = poolHashInputCode [97, 98, 99, 101]
    ∧ poolMutexNameUnits [97, 98, 99, 100] = poolMutexNameUnits [97, 98, 99, 101] := by
  refine ⟨by decide, by decide, ?_⟩
  unfold poolMutexNameUnits
  exact congrArg (fun x => mutexNameUnits (sha256 x)) (by decide)

/-- C3: the pool-mutex name is the fixed prefix `WireGuard\WireGuard-Name-Mutex-`
followed by exactly 64 lowercase hexadecimal code units (two `%02x` digits per
digest byte of the 32-byte SHA-256 digest); and every mutex the
driver-installation acquire creates bears the single constant name
`WireGuard\WireGuard-Driver-Installation-Mutex`, with no hashing and no
dependence on any input. -/
theorem C3_mutex_name_format :
    (∀ poolNorm : List Nat, ∃ hex : List Nat,
        poolMutexNameUnits poolNorm = mutexNamePrefixUnits ++ hex ∧
        hex.length = 64 ∧ ∀ c ∈ hex, isLowerHexUnit c)
    ∧ (∀ denv : DriverEnv, ∀ nm : List Nat,
        OsAct.createMutexAct nm ∈ (NamespaceTakeDriverInstallationMutex denv).trace →
        nm = installationMutexNameUnits) := by
  constructor
  · intro p
    refine ⟨(sha256 (poolHashInputCode p)).flatMap byteHexUnits, rfl, ?_, ?_⟩
    · rw [flatMap_byteHex_length, sha256_length]
    · exact flatMap_byteHex_lower _ (sha256_lt _)
  · intro denv nm h
    obtain ⟨io, cme, mh, wr⟩ := denv
    cases io
    · simp [NamespaceTakeDriverInstallationMutex] at h
    · cases cme
      · by_cases hw : wr = WAIT_OBJECT_0 ∨ wr = WAIT_ABANDONED
        · simp [NamespaceTakeDriverInstallationMutex, hw] at h
          exact h
        · simp [NamespaceTakeDriverInstallationMutex, hw] at h
          exact h
      · simp [NamespaceTakeDriverInstallationMutex] at h

/-- Witness for C3 at the concrete pool name "a" and a concrete
driver-installation environment. -/
theorem C3_mutex_name_format_wit :
    (∃ hex : List Nat,
        poolMutexNameUnits [97] = mutexNamePrefixUnits ++ hex ∧
        hex.length = 64 ∧ ∀ c ∈ hex, isLowerHexUnit c)
    ∧ installationMutexNameUnits = installationMutexNameUnits :=
  ⟨C3_mutex_name_format.1 [97],
   C3_mutex_name_format.2 ⟨true, none, 7, 0⟩ installationMutexNameUnits (by decide)⟩

/-- C4: the derivation factors through the NFC normalisation performed by
`NormalizeStringAlloc`: whenever two pool names have the same normal form,
their derived mutex names coincide. -/
theorem C4_normalization_invariance (nfc : List Nat → List Nat) (a b : List Nat)
    (h : nfc a = nfc b) : deriveMutexName nfc a = deriveMutexName nfc b :=
  congrArg poolMutexNameUnits h

/-- Witness for C4: the decomposed sequence e + COMBINING ACUTE ACCENT and the
precomposed é normalize alike under `nfcSample` and derive the same name. -/
theorem C4_normalization_invariance_wit :
    deriveMutexName nfcSample [101, 769] = deriveMutexName nfcSample [233] :=
  C4_normalization_invariance nfcSample [101, 769] [233] (by decide)

/-- C10: `NamespaceReleaseMutex` returns no status (C type VOID, here the
bare call trace): for every handle it unconditionally calls `ReleaseMutex`
and then unconditionally `CloseHandle`, identically whether the
`ReleaseMutex` call succeeds or fails. -/
theorem C10_release_unconditional (h : Nat) (releaseOk : Bool) :
    NamespaceReleaseMutex h releaseOk = [.releaseMutexAct h, .closeHandleAct h]
    ∧ NamespaceReleaseMutex h releaseOk = NamespaceReleaseMutex h true :=
  ⟨rfl, rfl⟩

/-- C5: for both acquires, a wait outcome of WAIT_OBJECT_0 (signaled) and of
WAIT_ABANDONED produce completely identical observable outputs (same returned
handle, same error state, same call trace); any other wait outcome yields a
NULL handle with `SetLastError(ERROR_GEN_FAILURE)`, and the created mutex
object is disposed (`CloseHandle`, which releases the object reference; no
ownership was granted, so no `ReleaseMutex` is due) before the error is
surfaced, as the explicit traces show. -/
theorem C5_wait_outcomes (nt : Nat → Nat) (env : TakeEnv) (denv : DriverEnv) :
    (NamespaceTakePoolMutex nt { env with waitResult := WAIT_OBJECT_0 }
      = NamespaceTakePoolMutex nt { env with waitResult := WAIT_ABANDONED })
    ∧ (NamespaceTakeDriverInstallationMutex { denv with waitResult := WAIT_OBJECT_0 }
      = NamespaceTakeDriverInstallationMutex { denv with waitResult := WAIT_ABANDONED })
    ∧ (env.initOk = true → env.createHashStatus = none → env.hashLabelStatus = none →
       env.hashNameStatus = none → env.finishHashStatus = none → env.createMutexErr = none →
       (env.waitResult = WAIT_OBJECT_0 ∨ env.waitResult = WAIT_ABANDONED) →
       ∀ pn, env.normResult = some pn →
       NamespaceTakePoolMutex nt env =
         ⟨some env.mutexHandle, none,
          [.createHashAct, .hashDataAct, .allocNorm, .hashDataAct, .finishHashAct,
           .createMutexAct (poolMutexNameUnits pn), .waitAct, .freeNorm, .destroyHashAct]⟩)
    ∧ (env.initOk = true → env.createHashStatus = none → env.hashLabelStatus = none →
       env.hashNameStatus = none → env.finishHashStatus = none → env.createMutexErr = none →
       env.waitResult ≠ WAIT_OBJECT_0 → env.waitResult ≠ WAIT_ABANDONED →
       ∀ pn, env.normResult = some pn →
       NamespaceTakePoolMutex nt env =
         ⟨none, some ERROR_GEN_FAILURE,
          [.createHashAct, .hashDataAct, .allocNorm, .hashDataAct, .finishHashAct,
           .createMutexAct (poolMutexNameUnits pn), .waitAct, .closeHandleAct env.mutexHandle,
           .freeNorm, .destroyHashAct, .setLastError ERROR_GEN_FAILURE]⟩)
    ∧ (denv.initOk = true → denv.createMutexErr = none →
       (denv.waitResult = WAIT_OBJECT_0 ∨ denv.waitResult = WAIT_ABANDONED) →
       NamespaceTakeDriverInstallationMutex denv =
         ⟨some denv.mutexHandle, none, [.createMutexAct installationMutexNameUnits, .waitAct]⟩)
    ∧ (denv.initOk = true → denv.createMutexErr = none →
       denv.waitResult ≠ WAIT_OBJECT_0 → denv.waitResult ≠ WAIT_ABANDONED →
       NamespaceTakeDriverInstallationMutex denv =
         ⟨none, some ERROR_GEN_FAILURE,
          [.createMutexAct installationMutexNameUnits, .waitAct,
           .closeHandleAct denv.mutexHandle, .setLastError ERROR_GEN_FAILURE]⟩) := by
  obtain ⟨io, chs, hls, nr, ne, hns, fhs, cme, mh, wr⟩ := env
  obtain ⟨dio, dcme, dmh, dwr⟩ := denv
  refine ⟨?_, ?_, ?_, ?_, ?_, ?_⟩
  · cases io <;> cases chs <;> cases hls <;> cases nr <;> cases hns <;> cases fhs <;>
      cases cme <;> rfl
  · cases dio <;> cases dcme <;> rfl
  · intro h1 h2 h3 h4 h5 h6 hw pn h7
    replace h1 : io = true := h1
    replace h2 : chs = none := h2
    replace h3 : hls = none := h3
    replace h4 : hns = none := h4
    replace h5 : fhs = none := h5
    replace h6 : cme = none := h6
    replace h7 : nr = some pn := h7
    subst h1; subst h2; subst h3; subst h4; subst h5; subst h6; subst h7
    replace hw : wr = WAIT_OBJECT_0 ∨ wr = WAIT_ABANDONED := hw
    simp [NamespaceTakePoolMutex, hw]
  · intro h1 h2 h3 h4 h5 h6 hw1 hw2 pn h7
    replace h1 : io = true := h1
    replace h2 : chs = none := h2
    replace h3 : hls = none := h3
    replace h4 : hns = none := h4
    replace h5 : fhs = none := h5
    replace h6 : cme = none := h6
    replace h7 : nr = some pn := h7
    subst h1; subst h2; subst h3; subst h4; subst h5; subst h6; subst h7
    replace hw1 : wr ≠ WAIT_OBJECT_0 := hw1
    replace hw2 : wr ≠ WAIT_ABANDONED := hw2
    have hw : ¬(wr = WAIT_OBJECT_0 ∨ wr = WAIT_ABANDONED) := by tauto
    simp [NamespaceTakePoolMutex, hw]
  · intro h1 h2 hw
    replace h1 : dio = true := h1
    replace h2 : dcme = none := h2
    subst h1; subst h2
    replace hw : dwr = WAIT_OBJECT_0 ∨ dwr = WAIT_ABANDONED := hw
    simp [NamespaceTakeDriverInstallationMutex, hw]
  · intro h1 h2 hw1 hw2
    replace h1 : dio = true := h1
    replace h2 : dcme = none := h2
    subst h1; subst h2
    replace hw1 : dwr ≠ WAIT_OBJECT_0 := hw1
    replace hw2 : dwr ≠ WAIT_ABANDONED := hw2
    have hw : ¬(dwr = WAIT_OBJECT_0 ∨ dwr = WAIT_ABANDONED) := by tauto
    simp [NamespaceTakeDriverInstallationMutex, hw]

/-- Witness for C5 at a concrete environment whose wait returns WAIT_TIMEOUT
(0x102): both acquires fail with ERROR_GEN_FAILURE and close the mutex handle
before surfacing the error. -/
theorem C5_wait_outcomes_wit :
    NamespaceTakePoolMutex id ⟨true, none, none, some [97], 0, none, none, none, 7, 258⟩ =
      ⟨none, some ERROR_GEN_FAILURE,
       [.createHashAct, .hashDataAct, .allocNorm, .hashDataAct, .finishHashAct,
        .createMutexAct (poolMutexNameUnits [97]), .waitAct, .closeHandleAct 7,
        .freeNorm, .destroyHashAct, .setLastError ERROR_GEN_FAILURE]⟩
    ∧ NamespaceTakeDriverInstallationMutex ⟨true, none, 7, 258⟩ =
      ⟨none, some ERROR_GEN_FAILURE,
       [.createMutexAct installationMutexNameUnits, .waitAct, .closeHandleAct 7,
        .setLastError ERROR_GEN_FAILURE]⟩ :=
  ⟨(C5_wait_outcomes id ⟨true, none, none, some [97], 0, none, none, none, 7, 258⟩
      ⟨true, none, 7, 258⟩).2.2.2.1 rfl rfl rfl rfl rfl rfl (by decide) (by decide) [97] rfl,
   (C5_wait_outcomes id ⟨true, none, none, some [97], 0, none, none, none, 7, 258⟩
      ⟨true, none, 7, 258⟩).2.2.2.2.2 rfl rfl (by decide) (by decide)⟩

/-- C6: in the create-or-open loop of `NamespaceRuntimeInit` (`nsLoopRun`),
a create failure with ERROR_ALREADY_EXISTS leads to opening the existing
namespace; an open failure with ERROR_PATH_NOT_FOUND retries the whole
attempt; the loop only ever reports an open failure with an error other than
ERROR_PATH_NOT_FOUND (the transient not-found race is never surfaced) and
only ever reports a create failure with an error other than
ERROR_ALREADY_EXISTS; and when the loop obtains the namespace,
`NamespaceRuntimeInit` returns success. -/
theorem C6_create_or_open_retry :
    (∀ rest : List NsIter, nsLoopRun (⟨some ERROR_ALREADY_EXISTS, none⟩ :: rest) = .opened true)
    ∧ (∀ rest : List NsIter,
        nsLoopRun (⟨some ERROR_ALREADY_EXISTS, some ERROR_PATH_NOT_FOUND⟩ :: rest)
          = nsLoopRun rest)
    ∧ (∀ (l : List NsIter) (e : Nat), nsLoopRun l = .failedOpen e → e ≠ ERROR_PATH_NOT_FOUND)
    ∧ (∀ (l : List NsIter) (e : Nat), nsLoopRun l = .failedCreate e → e ≠ ERROR_ALREADY_EXISTS)
    ∧ (∀ (nt : Nat → Nat) (env : NsEnv) (s : NsState),
        s.csAlive = true → s.privateNamespace = false →
        env.bcryptOpenAlg = none → env.createSid = none → env.createBoundary = none →
        env.addSid = none → (∃ vo, nsLoopRun env.nsLoop = .opened vo) →
        (NamespaceRuntimeInit nt env s).result = .ok) := by
  refine ⟨fun rest => rfl, fun rest => rfl, ?_, ?_, ?_⟩
  · intro l
    induction l with
    | nil => intro e h; simp [nsLoopRun] at h
    | cons it rest ih =>
      obtain ⟨ce, oe⟩ := it
      intro e h
      cases ce with
      | none => simp [nsLoopRun] at h
      | some c =>
        by_cases hc : c = ERROR_ALREADY_EXISTS
        · subst hc
          cases oe with
          | none => simp [nsLoopRun] at h
          | some o =>
            by_cases ho : o = ERROR_PATH_NOT_FOUND
            · subst ho
              have hstep : nsLoopRun (⟨some ERROR_ALREADY_EXISTS,
                  some ERROR_PATH_NOT_FOUND⟩ :: rest) = nsLoopRun rest := rfl
              rw [hstep] at h
              exact ih e h
            · have heq : o = e := by simp [nsLoopRun, ho] at h; exact h
              exact heq ▸ ho
        · simp [nsLoopRun, hc] at h
  · intro l
    induction l with
    | nil => intro e h; simp [nsLoopRun] at h
    | cons it rest ih =>
      obtain ⟨ce, oe⟩ := it
      intro e h
      cases ce with
      | none => simp [nsLoopRun] at h
      | some c =>
        by_cases hc : c = ERROR_ALREADY_EXISTS
        · subst hc
          cases oe with
          | none => simp [nsLoopRun] at h
          | some o =>
            by_cases ho : o = ERROR_PATH_NOT_FOUND
            · subst ho
              have hstep : nsLoopRun (⟨some ERROR_ALREADY_EXISTS,
                  some ERROR_PATH_NOT_FOUND⟩ :: rest) = nsLoopRun rest := rfl
              rw [hstep] at h
              exact ih e h
            · simp [nsLoopRun, ho] at h
        · have heq : c = e := by simp [nsLoopRun, hc] at h; exact h
          exact heq ▸ hc
  · intro nt env s hcs hpn halg hsid hbnd hadd hloop
    obtain ⟨pn, bh, ah, cs, le⟩ := s
    obtain ⟨ea, es, eb, ead, el⟩ := env
    replace hcs : cs = true := hcs
    replace hpn : pn = false := hpn
    replace halg : ea = none := halg
    replace hsid : es = none := hsid
    replace hbnd : eb = none := hbnd
    replace hadd : ead = none := hadd
    subst hcs; subst hpn; subst halg; subst hsid; subst hbnd; subst hadd
    obtain ⟨vo, hvo⟩ := hloop
    replace hvo : nsLoopRun el = .opened vo := hvo
    simp [NamespaceRuntimeInit, hvo]

/-- Witness for C6: a loop that retries one not-found race and then opens the
existing namespace succeeds; a non-not-found open failure is reported with
its own error code; a fully successful environment initializes. -/
theorem C6_create_or_open_retry_wit :
    nsLoopRun [⟨some ERROR_ALREADY_EXISTS, some ERROR_PATH_NOT_FOUND⟩,
               ⟨some ERROR_ALREADY_EXISTS, none⟩] = .opened true
    ∧ (5 : Nat) ≠ ERROR_PATH_NOT_FOUND
    ∧ (NamespaceRuntimeInit id goodNsEnv startedNsState).result = .ok := by
  refine ⟨?_, ?_, ?_⟩
  · rw [C6_create_or_open_retry.2.1]
    exact C6_create_or_open_retry.1 []
  · exact C6_create_or_open_retry.2.2.1 [⟨some ERROR_ALREADY_EXISTS, some 5⟩] 5 rfl
  · exact C6_create_or_open_retry.2.2.2.2 id goodNsEnv startedNsState rfl rfl rfl rfl rfl rfl
      ⟨false, rfl⟩

/-- C7: whenever `NamespaceRuntimeInit` fails (result FALSE) from a live,
uninitialized context, the sub-resources acquired earlier in the call are
released in reverse acquisition order (the release actions in the trace are
exactly the reversed paired releases of the acquire actions), the critical
section is left and only then is the failure code surfaced via
`SetLastError` (the trace ends `..., leaveCS, setLastError`), the context
stays fully uninitialized, and an acquire whose init failed returns NULL. -/
theorem C7_failure_unwinds (nt : Nat → Nat) (env : NsEnv) (s : NsState)
    (hcs : s.csAlive = true) (hpn : s.privateNamespace = false)
    (hbh : s.boundaryHeld = false) (hah : s.algHeld = false)
    (hfail : (NamespaceRuntimeInit nt env s).result = .fail) :
    ((NamespaceRuntimeInit nt env s).trace.filter isReleaseAct
      = (((NamespaceRuntimeInit nt env s).trace.filter isAcquireAct).map releasePairAct).reverse)
    ∧ (∃ t, (NamespaceRuntimeInit nt env s).trace
        = t ++ [.leaveCS, .setLastError (NamespaceRuntimeInit nt env s).state.lastError])
    ∧ uninitializedS (NamespaceRuntimeInit nt env s).state
    ∧ (∀ tenv : TakeEnv, tenv.initOk = false → (NamespaceTakePoolMutex nt tenv).handle = none) := by
  obtain ⟨pn, bh, ah, cs, le⟩ := s
  obtain ⟨ea, es, eb, ead, el⟩ := env
  replace hcs : cs = true := hcs
  replace hpn : pn = false := hpn
  replace hbh : bh = false := hbh
  replace hah : ah = false := hah
  subst hcs; subst hpn; subst hbh; subst hah
  cases ea with
  | some st =>
    exact ⟨rfl, ⟨[.enterCS], rfl⟩, ⟨rfl, rfl, rfl⟩, fun tenv h => takePool_initFail nt tenv h⟩
  | none =>
    cases es with
    | some e =>
      exact ⟨rfl, ⟨[.enterCS, .openAlgProvider, .closeAlgProvider], rfl⟩, ⟨rfl, rfl, rfl⟩,
        fun tenv h => takePool_initFail nt tenv h⟩
    | none =>
      cases eb with
      | some e =>
        exact ⟨rfl, ⟨[.enterCS, .openAlgProvider, .closeAlgProvider], rfl⟩, ⟨rfl, rfl, rfl⟩,
          fun tenv h => takePool_initFail nt tenv h⟩
      | none =>
        cases ead with
        | some e =>
          exact ⟨rfl, ⟨[.enterCS, .openAlgProvider, .createBoundaryDescriptor,
            .deleteBoundaryDescriptor, .closeAlgProvider], rfl⟩, ⟨rfl, rfl, rfl⟩,
            fun tenv h => takePool_initFail nt tenv h⟩
        | none =>
          rcases hE : nsLoopRun el with vo | e | e | _
          · simp [NamespaceRuntimeInit, hE] at hfail
          · have hrun : NamespaceRuntimeInit nt ⟨none, none, none, none, el⟩
                ⟨false, false, false, true, le⟩ =
                ⟨.fail, ⟨false, false, false, true, e⟩,
                 [.enterCS, .openAlgProvider, .createBoundaryDescriptor, .addSidToBoundary,
                  .deleteBoundaryDescriptor, .closeAlgProvider, .leaveCS, .setLastError e]⟩ := by
              simp [NamespaceRuntimeInit, hE]
            rw [hrun]
            exact ⟨rfl, ⟨[.enterCS, .openAlgProvider, .createBoundaryDescriptor,
              .addSidToBoundary, .deleteBoundaryDescriptor, .closeAlgProvider], rfl⟩,
              ⟨rfl, rfl, rfl⟩, fun tenv h => takePool_initFail nt tenv h⟩
          · have hrun : NamespaceRuntimeInit nt ⟨none, none, none, none, el⟩
                ⟨false, false, false, true, le⟩ =
                ⟨.fail, ⟨false, false, false, true, e⟩,
                 [.enterCS, .openAlgProvider, .createBoundaryDescriptor, .addSidToBoundary,
                  .deleteBoundaryDescriptor, .closeAlgProvider, .leaveCS, .setLastError e]⟩ := by
              simp [NamespaceRuntimeInit, hE]
            rw [hrun]
            exact ⟨rfl, ⟨[.enterCS, .openAlgProvider, .createBoundaryDescriptor,
              .addSidToBoundary, .deleteBoundaryDescriptor, .closeAlgProvider], rfl⟩,
              ⟨rfl, rfl, rfl⟩, fun tenv h => takePool_initFail nt tenv h⟩
          · simp [NamespaceRuntimeInit, hE] at hfail

/-- Witness for C7 at a concrete environment whose SID-binding call fails
with error 5. -/
theorem C7_failure_unwinds_wit :
    ((NamespaceRuntimeInit id failNsEnv startedNsState).trace.filter isReleaseAct
      = (((NamespaceRuntimeInit id failNsEnv startedNsState).trace.filter
            isAcquireAct).map releasePairAct).reverse)
    ∧ (∃ t, (NamespaceRuntimeInit id failNsEnv startedNsState).trace
        = t ++ [.leaveCS,
            .setLastError (NamespaceRuntimeInit id failNsEnv startedNsState).state.lastError])
    ∧ uninitializedS (NamespaceRuntimeInit id failNsEnv startedNsState).state
    ∧ (∀ tenv : TakeEnv, tenv.initOk = false →
        (NamespaceTakePoolMutex id tenv).handle = none) :=
  C7_failure_unwinds id failNsEnv startedNsState rfl rfl rfl rfl rfl

/-- C8: once initialized, `NamespaceRuntimeInit` is idempotent: it returns
TRUE immediately, runs no initialization step (trace is just
enter/leave of the lock), and leaves the state untouched; moreover from any
all-or-nothing state the resulting state is again all-or-nothing (either all
three resources present or none), and a call that reports success always
leaves the context fully initialized. -/
theorem C8_idempotent_all_or_nothing (nt : Nat → Nat) (env : NsEnv) (s : NsState) :
    (s.csAlive = true → s.privateNamespace = true →
        NamespaceRuntimeInit nt env s = ⟨.ok, s, [.enterCS, .leaveCS]⟩)
    ∧ ((initializedS s ∨ uninitializedS s) →
        initializedS (NamespaceRuntimeInit nt env s).state
          ∨ uninitializedS (NamespaceRuntimeInit nt env s).state)
    ∧ ((initializedS s ∨ uninitializedS s) →
        (NamespaceRuntimeInit nt env s).result = .ok →
        initializedS (NamespaceRuntimeInit nt env s).state) := by
  obtain ⟨pn, bh, ah, cs, le⟩ := s
  obtain ⟨ea, es, eb, ead, el⟩ := env
  refine ⟨?_, ?_, ?_⟩
  · intro h1 h2
    replace h1 : cs = true := h1
    replace h2 : pn = true := h2
    subst h1; subst h2
    rfl
  · intro hd
    cases cs
    · exact hd
    · cases pn
      · rcases hd with hI | hU
        · exact absurd hI.1 (by simp)
        · obtain ⟨h1, h2, h3⟩ := hU
          replace h2 : bh = false := h2
          replace h3 : ah = false := h3
          subst h2; subst h3
          cases ea with
          | some st => exact Or.inr ⟨rfl, rfl, rfl⟩
          | none =>
            cases es with
            | some e => exact Or.inr ⟨rfl, rfl, rfl⟩
            | none =>
              cases eb with
              | some e => exact Or.inr ⟨rfl, rfl, rfl⟩
              | none =>
                cases ead with
                | some e => exact Or.inr ⟨rfl, rfl, rfl⟩
                | none =>
                  rcases hE : nsLoopRun el with vo | e | e | _
                  · have hrun : (NamespaceRuntimeInit nt ⟨none, none, none, none, el⟩
                        ⟨false, false, false, true, le⟩).state =
                        ⟨true, true, true, true, le⟩ := by
                      simp [NamespaceRuntimeInit, hE]
                    rw [hrun]
                    exact Or.inl ⟨rfl, rfl, rfl⟩
                  · have hrun : (NamespaceRuntimeInit nt ⟨none, none, none, none, el⟩
                        ⟨false, false, false, true, le⟩).state =
                        ⟨false, false, false, true, e⟩ := by
                      simp [NamespaceRuntimeInit, hE]
                    rw [hrun]
                    exact Or.inr ⟨rfl, rfl, rfl⟩
                  · have hrun : (NamespaceRuntimeInit nt ⟨none, none, none, none, el⟩
                        ⟨false, false, false, true, le⟩).state =
                        ⟨false, false, false, true, e⟩ := by
                      simp [NamespaceRuntimeInit, hE]
                    rw [hrun]
                    exact Or.inr ⟨rfl, rfl, rfl⟩
                  · have hrun : (NamespaceRuntimeInit nt ⟨none, none, none, none, el⟩
                        ⟨false, false, false, true, le⟩).state =
                        ⟨false, false, false, true, le⟩ := by
                      simp [NamespaceRuntimeInit, hE]
                    rw [hrun]
                    exact Or.inr ⟨rfl, rfl, rfl⟩
      · exact hd
  · intro hd hres
    cases cs
    · exact absurd hres (by simp [NamespaceRuntimeInit])
    · cases pn
      · rcases hd with hI | hU
        · exact absurd hI.1 (by simp)
        · obtain ⟨h1, h2, h3⟩ := hU
          replace h2 : bh = false := h2
          replace h3 : ah = false := h3
          subst h2; subst h3
          cases ea with
          | some st => exact absurd hres (by simp [NamespaceRuntimeInit])
          | none =>
            cases es with
            | some e => exact absurd hres (by simp [NamespaceRuntimeInit])
            | none =>
              cases eb with
              | some e => exact absurd hres (by simp [NamespaceRuntimeInit])
              | none =>
                cases ead with
                | some e => exact absurd hres (by simp [NamespaceRuntimeInit])
                | none =>
                  rcases hE : nsLoopRun el with vo | e | e | _
                  · have hrun : (NamespaceRuntimeInit nt ⟨none, none, none, none, el⟩
                        ⟨false, false, false, true, le⟩).state =
                        ⟨true, true, true, true, le⟩ := by
                      simp [NamespaceRuntimeInit, hE]
                    rw [hrun]
                    exact ⟨rfl, rfl, rfl⟩
                  · exact absurd hres (by simp [NamespaceRuntimeInit, hE])
                  · exact absurd hres (by simp [NamespaceRuntimeInit, hE])
                  · exact absurd hres (by simp [NamespaceRuntimeInit, hE])
      · rcases hd with hI | hU
        · exact hI
        · exact absurd hU.1 (by simp)

/-- Witness for C8: the fast path on an initialized state, and all-or-nothing
preservation from the fresh started state. -/
theorem C8_idempotent_all_or_nothing_wit :
    NamespaceRuntimeInit id goodNsEnv initializedNsState
      = ⟨.ok, initializedNsState, [.enterCS, .leaveCS]⟩
    ∧ (initializedS (NamespaceRuntimeInit id goodNsEnv startedNsState).state
        ∨ uninitializedS (NamespaceRuntimeInit id goodNsEnv startedNsState).state) :=
  ⟨(C8_idempotent_all_or_nothing id goodNsEnv initializedNsState).1 rfl rfl,
   (C8_idempotent_all_or_nothing id goodNsEnv startedNsState).2.1 (Or.inr ⟨rfl, rfl, rfl⟩)⟩

/-- C9 counterexample: `NamespaceDone` also deletes the `Initializing`
critical section (line 241), so after init → teardown, a plain re-init — as
`NamespaceTakePoolMutex` would run it — enters a deleted critical section:
undefined behaviour, not the success the claim states. -/
theorem C9_reinit_after_done_cex :
    (NamespaceRuntimeInit id goodNsEnv startedNsState).result = .ok
    ∧ (NamespaceRuntimeInit id goodNsEnv
        (NamespaceDone (NamespaceRuntimeInit id goodNsEnv startedNsState).state).state).result
        = .ub
    ∧ InitResult.ub ≠ InitResult.ok := ⟨rfl, rfl, by decide⟩

/-- C9 as amended: the round trip is safe only with the lock re-created:
after a successful init and a `NamespaceDone`, running `NamespaceInit` again
and then `NamespaceRuntimeInit` (with an environment whose calls succeed)
returns success and leaves the context fully initialized again. -/
theorem C9_reinit_with_namespace_init (nt : Nat → Nat) (env : NsEnv) (s : NsState)
    (hs : initializedS s)
    (halg : env.bcryptOpenAlg = none) (hsid : env.createSid = none)
    (hbnd : env.createBoundary = none) (hadd : env.addSid = none)
    (hloop : ∃ vo, nsLoopRun env.nsLoop = .opened vo) :
    (NamespaceRuntimeInit nt env (NamespaceInit (NamespaceDone s).state)).result = .ok
    ∧ initializedS (NamespaceRuntimeInit nt env (NamespaceInit (NamespaceDone s).state)).state := by
  obtain ⟨pn, bh, ah, cs, le⟩ := s
  obtain ⟨ea, es, eb, ead, el⟩ := env
  obtain ⟨h1, h2, h3⟩ := hs
  replace h1 : pn = true := h1
  replace h2 : bh = true := h2
  replace h3 : ah = true := h3
  subst h1; subst h2; subst h3
  replace halg : ea = none := halg
  replace hsid : es = none := hsid
  replace hbnd : eb = none := hbnd
  replace hadd : ead = none := hadd
  subst halg; subst hsid; subst hbnd; subst hadd
  obtain ⟨vo, hvo⟩ := hloop
  replace hvo : nsLoopRun el = .opened vo := hvo
  have hrun : (NamespaceRuntimeInit nt ⟨none, none, none, none, el⟩
      (NamespaceInit (NamespaceDone ⟨true, true, true, cs, le⟩).state)).result = .ok
      ∧ (NamespaceRuntimeInit nt ⟨none, none, none, none, el⟩
          (NamespaceInit (NamespaceDone ⟨true, true, true, cs, le⟩).state)).state =
        ⟨true, true, true, true, le⟩ := by
    constructor <;> simp [NamespaceRuntimeInit, NamespaceDone, NamespaceInit, hvo]
  exact ⟨hrun.1, by rw [hrun.2]; exact ⟨rfl, rfl, rfl⟩⟩

/-- Witness for C9 as amended, at a concrete initialized state and a
fully-successful environment. -/
theorem C9_reinit_with_namespace_init_wit :
    (NamespaceRuntimeInit id goodNsEnv
        (NamespaceInit (NamespaceDone initializedNsState).state)).result = .ok
    ∧ initializedS (NamespaceRuntimeInit id goodNsEnv
        (NamespaceInit (NamespaceDone initializedNsState).state)).state :=
  C9_reinit_with_namespace_init id goodNsEnv initializedNsState ⟨rfl, rfl, rfl⟩
    rfl rfl rfl rfl ⟨false, rfl⟩
